import Mathlib

/-!
Verification of the airlines-ml flight-fetch core
(`src/dst_airlines/clients/aviationstack.py` and
`src/dst_airlines/utils/get_tool_fernet.py`).

The Python code is shallowly embedded: JSON payloads become the inductive
`JsonValue`; Python dicts become association lists looked up first-match
(Python dict keys are unique); `requests` outcomes become the inductive
`HttpResult`; a Python function that can raise returns `Except String`.
-/

/-- A JSON value as produced by `resp.json()`.  Numbers are modelled as
integers (no claim inspects numeric values). -/
inductive JsonValue where
  | null : JsonValue
  | bool (b : Bool) : JsonValue
  | num (n : Int) : JsonValue
  | str (s : String) : JsonValue
  | arr (items : List JsonValue) : JsonValue
  | obj (fields : List (String × JsonValue)) : JsonValue
deriving Repr

namespace JsonValue

/-- Python truthiness of a JSON-decoded value (`bool(v)`). -/
def truthy : JsonValue → Bool
  | .null => false
  | .bool b => b
  | .num n => n != 0
  | .str s => !s.isEmpty
  | .arr items => !items.isEmpty
  | .obj fields => !fields.isEmpty

end JsonValue

/-- First-match lookup in an association list; models `d[k]` / `d.get(k)`
presence for a Python dict (whose keys are unique). -/
def lookupField : List (String × JsonValue) → String → Option JsonValue
  | [], _ => none
  | (k, v) :: fields, key => if k == key then some v else lookupField fields key

/-- Membership test `k in d` on a Python dict. -/
def hasField (fields : List (String × JsonValue)) (key : String) : Bool :=
  (lookupField fields key).isSome

/-- Python `d.get(k)`: the value under `k`, or `None` when absent. -/
def getField (fields : List (String × JsonValue)) (key : String) : JsonValue :=
  (lookupField fields key).getD .null

/-- Python `isinstance(payload, dict) and k in payload`. -/
def payloadHasKey : JsonValue → String → Bool
  | .obj fields, key => hasField fields key
  | _, _ => false

/-- Python `payload.get(k)` for a payload already known to be a dict
(non-dict payloads yield `null`; every call site guards with `isinstance`). -/
def pyGetValue : JsonValue → String → JsonValue
  | .obj fields, key => getField fields key
  | _, _ => .null

/-- Whether a value is a Python dict (`isinstance(v, dict)`). -/
def isObjVal : JsonValue → Bool
  | .obj _ => true
  | _ => false

/-- Python `v is False`: the value is exactly the boolean `False`. -/
def pyIsFalse : JsonValue → Bool
  | .bool false => true
  | _ => false

/-- Python `v == s` for a string literal `s`: true only when `v` is a string
equal to `s` (comparison with a non-string is `False`). -/
def pyEqStr (v : JsonValue) (s : String) : Bool :=
  match v with
  | .str t => t == s
  | _ => false

mutual

/-- Python `repr`-style rendering of a JSON-decoded value, used by f-strings
for non-string values nested in containers. -/
def pyRepr : JsonValue → String
  | .null => "None"
  | .bool true => "True"
  | .bool false => "False"
  | .num n => toString n
  | .str s => "\x27" ++ s ++ "\x27"
  | .arr items => "[" ++ pyReprList items ++ "]"
  | .obj fields => "\x7b" ++ pyReprFields fields ++ "\x7d"

def pyReprList : List JsonValue → String
  | [] => ""
  | [x] => pyRepr x
  | x :: xs => pyRepr x ++ ", " ++ pyReprList xs

def pyReprFields : List (String × JsonValue) → String
  | [] => ""
  | [(k, v)] => "\x27" ++ k ++ "\x27: " ++ pyRepr v
  | (k, v) :: fields => "\x27" ++ k ++ "\x27: " ++ pyRepr v ++ ", " ++ pyReprFields fields

end

/-- Python `str(v)` as an f-string renders it: strings verbatim, everything
else via `pyRepr`. -/
def pyStr : JsonValue → String
  | .str s => s
  | v => pyRepr v

/-- The Python membership test `pv in (None, "", [], {})` from `prune`
(a value equal to `None`, the empty string, the empty list or the empty
dict). -/
def isEmptyVal : JsonValue → Bool
  | .null => true
  | .str s => s.isEmpty
  | .arr items => items.isEmpty
  | .obj fields => fields.isEmpty
  | _ => false

mutual

/-- `prune` from `aviationstack.py` lines 32-54: recursively remove
keys/elements whose pruned value is `None`/empty, collapsing a container
that becomes empty to `None` (here `JsonValue.null`). -/
def prune : JsonValue → JsonValue
  | .null => .null
  | .bool b => .bool b
  | .num n => .num n
  | .str s => .str s
  | .arr items =>
      let cleaned := pruneList items
      if cleaned.isEmpty then .null else .arr cleaned
  | .obj fields =>
      let cleaned := pruneFields fields
      if cleaned.isEmpty then .null else .obj cleaned

/-- The list comprehension plus filter inside `prune` for lists. -/
def pruneList : List JsonValue → List JsonValue
  | [] => []
  | x :: xs =>
      let px := prune x
      let rest := pruneList xs
      if isEmptyVal px then rest else px :: rest

/-- The `for k, v in obj.items()` loop inside `prune` for dicts. -/
def pruneFields : List (String × JsonValue) → List (String × JsonValue)
  | [] => []
  | (k, v) :: fields =>
      let pv := prune v
      let rest := pruneFields fields
      if isEmptyVal pv then rest else (k, pv) :: rest

end

/-- `is_in_air` from `aviationstack.py` lines 57-70, on the fields of a
flight record (the caller guarantees the record is a dict). -/
def is_in_air (flight : List (String × JsonValue)) : Bool :=
  match lookupField flight "live" with
  | some (JsonValue.obj live) =>
      if hasField live "is_ground" then pyIsFalse (getField live "is_ground")
      else pyEqStr (getField flight "flight_status") "active"
  | _ => pyEqStr (getField flight "flight_status") "active"

/-- The extraction loop shared by both fetch variants (`aviationstack.py`
lines 101-103 and 173-175): keep dict records satisfying `is_in_air`,
replacing each by `prune(f) or f`. -/
def extractFlights : List JsonValue → List JsonValue
  | [] => []
  | f :: rest =>
      match f with
      | .obj fields =>
          if is_in_air fields then
            (let p := prune f; if p.truthy then p else f) :: extractFlights rest
          else extractFlights rest
      | _ => extractFlights rest

/-- Outcome of the single `requests.get` call: a transport exception, or a
response carrying its status code, its text, and the result of parsing its
body as JSON (`none` models a `ValueError` from `resp.json()`). -/
inductive HttpResult where
  | timeout : HttpResult
  | connectionError : HttpResult
  | requestException (msg : String) : HttpResult
  | response (code : Nat) (text : String) (body : Option JsonValue) : HttpResult
deriving Repr

/-- The `FetchStatus` dataclass (`aviationstack.py` lines 15-25), with the
constructor defaults of `fetch_in_air_flights` (`flights_extracted=[]`). -/
structure FetchStatus where
  connected : Bool
  http_ok : Bool
  json_ok : Bool
  api_ok : Bool
  has_flights_array : Bool
  extracted_any : Bool
  error_message : Option String := none
  flights_extracted : List JsonValue := []
  raw : Option JsonValue := none
deriving Repr

/-- The freshly constructed status of `fetch_in_air_flights` lines 112-120. -/
def initStatus : FetchStatus :=
  { connected := false, http_ok := false, json_ok := false, api_ok := false,
    has_flights_array := false, extracted_any := false,
    error_message := none, flights_extracted := [], raw := none }

/-- The message of `aviationstack.py` lines 164-166. -/
def noFlightsMsg : String := "No flights list found (expected \"data\" or \"results\")."

/-- The message of `aviationstack.py` lines 181-183. -/
def noMatchesMsg : String := "Request succeeded, but no in-air flights matched criteria."

/-- Python `err = payload.get("error") or {}` (`aviationstack.py` line 148). -/
def errObjOf (payload : JsonValue) : JsonValue :=
  let errv := pyGetValue payload "error"
  if errv.truthy then errv else JsonValue.obj []

/-- Flights-list resolution of `aviationstack.py` lines 156-161: `data` when
its value is a list, else `results` when its value is a list, else `None`. -/
def flightsOf : JsonValue → Option (List JsonValue)
  | .obj fields =>
      match lookupField fields "data" with
      | some (.arr items) => some items
      | _ =>
          match lookupField fields "results" with
          | some (.arr items) => some items
          | _ => none
  | _ => none

/-- Python `if not flights:` on the resolved flights list (`None` or empty
both count as missing). -/
def noUsableFlights (payload : JsonValue) : Bool :=
  match flightsOf payload with
  | none => true
  | some flights => flights.isEmpty

/-- The body of `fetch_in_air_flights` after credentials are resolved
(`aviationstack.py` lines 129-197).  Each `.ok` is one `return status`
site with the fields mutated so far; `.error` models an exception escaping
the function (the `except` clauses catch only `requests` exceptions, so the
`AttributeError` raised by `err.get` on a non-dict truthy `error` value
propagates). -/
def fetch_core (net : HttpResult) : Except String FetchStatus :=
  match net with
  | .timeout =>
      .ok { initStatus with error_message := some "Request timed out." }
  | .connectionError =>
      .ok { initStatus with
              error_message := some "Connection error (could not reach the API)." }
  | .requestException e =>
      .ok { initStatus with error_message := some ("Unexpected request error: " ++ e) }
  | .response code text body =>
      if code ≠ 200 then
        .ok { initStatus with
                connected := true,
                error_message := some ("HTTP error " ++ toString code ++ ": " ++ text.take 300) }
      else
        match body with
        | none =>
            .ok { initStatus with
                    connected := true,
                    http_ok := true,
                    error_message := some "Response is not valid JSON." }
        | some payload =>
            if payloadHasKey payload "error" then
              match errObjOf payload with
              | .obj errFields =>
                  .ok { initStatus with
                          connected := true,
                          http_ok := true,
                          json_ok := true,
                          raw := some payload,
                          error_message := some ("API error: "
                            ++ pyStr (getField errFields "code") ++ " - "
                            ++ pyStr (getField errFields "message")) }
              | _ => .error "AttributeError: object has no attribute get"
            else
              match flightsOf payload with
              | none =>
                  .ok { initStatus with
                          connected := true,
                          http_ok := true,
                          json_ok := true,
                          api_ok := true,
                          raw := some payload,
                          error_message := some noFlightsMsg }
              | some flights =>
                  if flights.isEmpty then
                    .ok { initStatus with
                            connected := true,
                            http_ok := true,
                            json_ok := true,
                            api_ok := true,
                            raw := some payload,
                            error_message := some noFlightsMsg }
                  else
                    let extracted := extractFlights flights
                    if extracted.isEmpty then
                      .ok { initStatus with
                              connected := true,
                              http_ok := true,
                              json_ok := true,
                              api_ok := true,
                              has_flights_array := true,
                              extracted_any := !extracted.isEmpty,
                              flights_extracted := extracted,
                              raw := some payload,
                              error_message := some noMatchesMsg }
                    else
                      .ok { initStatus with
                              connected := true,
                              http_ok := true,
                              json_ok := true,
                              api_ok := true,
                              has_flights_array := true,
                              extracted_any := !extracted.isEmpty,
                              flights_extracted := extracted,
                              raw := some payload }

/-- Python iteration `for f in flights` over an arbitrary value: lists give
their elements, dicts their keys, strings their characters; anything else
raises `TypeError`. -/
def pyIter : JsonValue → Except String (List JsonValue)
  | .arr items => .ok items
  | .obj fields => .ok (fields.map (fun kv => JsonValue.str kv.1))
  | .str s => .ok (s.toList.map (fun c => JsonValue.str (String.singleton c)))
  | _ => .error "TypeError: object is not iterable"

/-- The body of `fetch_partial_in_air` after credentials are resolved
(`aviationstack.py` lines 90-105).  `raise_for_status` raises only on
4xx/5xx codes; every raised exception becomes `.error`. -/
def fetch_partial_core (net : HttpResult) :
    Except String (List JsonValue × JsonValue) :=
  match net with
  | .timeout => .error "requests.exceptions.Timeout"
  | .connectionError => .error "requests.exceptions.ConnectionError"
  | .requestException e => .error ("requests.exceptions.RequestException: " ++ e)
  | .response code _text body =>
      if 400 ≤ code ∧ code < 600 then
        .error ("requests.exceptions.HTTPError: " ++ toString code)
      else
        match body with
        | none => .error "ValueError: response body is not valid JSON"
        | some payload =>
            if payloadHasKey payload "error" then
              .error ("RuntimeError: API error: " ++ pyRepr (pyGetValue payload "error"))
            else
              match payload with
              | .obj fields =>
                  let d := getField fields "data"
                  let flights :=
                    if d.truthy then d
                    else
                      let r := getField fields "results"
                      if r.truthy then r else JsonValue.arr []
                  match pyIter flights with
                  | .error e => .error e
                  | .ok items => .ok (extractFlights items, payload)
              | _ => .error "AttributeError: object has no attribute get"

/-- Process environment relevant to `get_credentials` (`os.getenv` results
for the three variables it reads; `none` models an unset variable). -/
structure PyEnv where
  encryption_key : Option String
  api_url : Option String
  token : Option String

/-- Abstract model of the external `cryptography.fernet.Fernet` cipher:
whether constructing `Fernet(key)` succeeds, and the outcome of
`cipher.decrypt` on a token. -/
structure FernetModel where
  keyOk : String → Bool
  decrypt : String → String → Except String String

/-- Python `not s` on an `os.getenv` result (`None` or empty string). -/
def optFalsy : Option String → Bool
  | none => true
  | some s => s.isEmpty

/-- Remove from both ends of a string every character satisfying `p`
(Python `str.strip`). -/
def stripWhile (p : Char → Bool) (s : String) : String :=
  String.mk (((s.toList.dropWhile p).reverse.dropWhile p).reverse)

/-- `_clean` from `get_tool_fernet.py`: `s.strip().strip(dquote).strip(quote)`. -/
def pyClean (s : String) : String :=
  stripWhile (fun c => c == Char.ofNat 39)
    (stripWhile (fun c => c == Char.ofNat 34) (stripWhile Char.isWhitespace s))

/-- Python `host.rstrip("/")`. -/
def rstripSlash (s : String) : String :=
  String.mk ((s.toList.reverse.dropWhile (fun c => c == Char.ofNat 47)).reverse)

/-- `_maybe_decrypt` from `get_tool_fernet.py` lines 12-16. -/
def maybe_decrypt (fm : FernetModel) (key : String) (value : String) :
    Except String String :=
  let v := pyClean value
  if v.startsWith "gAAAAA" then fm.decrypt key v else .ok v

/-- `get_credentials` from `get_tool_fernet.py` lines 18-36; each `.error`
is one `raise` site (including a `Fernet` construction failure on a
malformed key, modelled through `FernetModel.keyOk`). -/
def get_credentials (fm : FernetModel) (env : PyEnv) (limit : Nat) :
    Except String (String × String × Nat) :=
  if optFalsy env.encryption_key then
    .error "Missing ENCRYPTION_KEY in environment (.env)."
  else
    let key := pyClean (env.encryption_key.getD "")
    if fm.keyOk key = false then
      .error "ValueError: Fernet key must be 32 url-safe base64-encoded bytes."
    else if optFalsy env.api_url || optFalsy env.token then
      .error "Missing API_URL_AVIONSTACK/TOKEN_AVIONSTACK in environment (.env)."
    else
      let host := env.api_url.getD ""
      match maybe_decrypt fm key (env.token.getD "") with
      | .error e => .error e
      | .ok token =>
          if !(host.startsWith "http://" || host.startsWith "https://") then
            .error ("host does not look like a URL: " ++ host)
          else
            .ok (rstripSlash host, token, limit)

/-- `fetch_in_air_flights` (`aviationstack.py` lines 108-197): resolve
credentials first (line 122, outside the `try` block, so a provider failure
propagates), then perform the staged fetch.  The second component counts
how many HTTP GET requests were issued. -/
def fetch_in_air_flights (fm : FernetModel) (env : PyEnv) (net : HttpResult) :
    Except String FetchStatus × Nat :=
  match get_credentials fm env 100 with
  | .error e => (.error e, 0)
  | .ok _ => (fetch_core net, 1)

/-- `fetch_partial_in_air` (`aviationstack.py` lines 77-105): same
credential resolution, then the simple fetch.  The second component counts
HTTP GET requests. -/
def fetch_partial_in_air (fm : FernetModel) (env : PyEnv) (net : HttpResult) :
    Except String (List JsonValue × JsonValue) × Nat :=
  match get_credentials fm env 100 with
  | .error e => (.error e, 0)
  | .ok _ => (fetch_partial_core net, 1)

/-- The pipeline stage a status reports, read off its first false
checkpoint exactly as `print_status_and_sample` does
(`aviationstack.py` lines 235-249). -/
inductive Stage where
  | noConnect : Stage
  | badHttp : Stage
  | badJson : Stage
  | apiError : Stage
  | noFlights : Stage
  | noMatches : Stage
  | success : Stage
deriving Repr, DecidableEq

/-- First false checkpoint of a status, in checkpoint order. -/
def stageOf (s : FetchStatus) : Stage :=
  if s.connected = false then .noConnect
  else if s.http_ok = false then .badHttp
  else if s.json_ok = false then .badJson
  else if s.api_ok = false then .apiError
  else if s.has_flights_array = false then .noFlights
  else if s.extracted_any = false then .noMatches
  else .success

/-- The stage at which a given request outcome ought to stop, computed
directly from the outcome. -/
def expectedStage (net : HttpResult) : Stage :=
  match net with
  | .timeout => .noConnect
  | .connectionError => .noConnect
  | .requestException _ => .noConnect
  | .response code _ body =>
      if code ≠ 200 then .badHttp
      else
        match body with
        | none => .badJson
        | some payload =>
            if payloadHasKey payload "error" then .apiError
            else
              match flightsOf payload with
              | none => .noFlights
              | some flights =>
                  if flights.isEmpty then .noFlights
                  else if (extractFlights flights).isEmpty then .noMatches
                  else .success

/-- A 200 response whose JSON body has a top-level `error` key holding a
truthy non-dict value: the one post-credential input on which
`fetch_in_air_flights` raises (`err.get` on a non-dict). -/
def badErrorEnvelope : HttpResult → Bool
  | .response code _ (some payload) =>
      code == 200 && payloadHasKey payload "error" && !(isObjVal (errObjOf payload))
  | _ => false

/-- Extraction as the spec words it: the sublist of records that are
mappings and satisfy the airborne predicate, in original order, each
replaced by its pruned copy unless pruning collapses it to the absent
sentinel, in which case the original record is kept. -/
def specExtract (flights : List JsonValue) : List JsonValue :=
  (flights.filter (fun f =>
      isObjVal f && (match f with | .obj fields => is_in_air fields | _ => false))).map
    (fun f => if (prune f).truthy then prune f else f)

/-- Field pruning as the spec words it: prune every value, then drop the
keys whose pruned value is null or empty. -/
def specPruneFields (fields : List (String × JsonValue)) :
    List (String × JsonValue) :=
  (fields.map (fun kv => (kv.1, prune kv.2))).filter (fun kv => !(isEmptyVal kv.2))

/-- List pruning as the spec words it: prune every element, then drop the
elements that became null or empty. -/
def specPruneList (items : List JsonValue) : List JsonValue :=
  (items.map prune).filter (fun v => !(isEmptyVal v))

/-- Whether the nested `live` mapping of a record exists and contains the
key `is_ground` (the condition selecting the primary airborne signal). -/
def liveHasIsGround (flight : List (String × JsonValue)) : Bool :=
  match lookupField flight "live" with
  | some (JsonValue.obj live) => hasField live "is_ground"
  | _ => false

/-!
Theorems.  First a member-wise induction principle for the nested
inductive `JsonValue`, then the claim theorems with their helpers.
-/

theorem JsonValue.induction_mem (P : JsonValue → Prop)
    (hnull : P JsonValue.null)
    (hbool : ∀ b, P (JsonValue.bool b))
    (hnum : ∀ n, P (JsonValue.num n))
    (hstr : ∀ s, P (JsonValue.str s))
    (harr : ∀ items, (∀ x ∈ items, P x) → P (JsonValue.arr items))
    (hobj : ∀ fields, (∀ kv ∈ fields, P kv.2) → P (JsonValue.obj fields)) :
    ∀ v, P v := by
  have key : ∀ n : Nat, ∀ v : JsonValue, sizeOf v ≤ n → P v := by
    intro n
    induction n with
    | zero =>
        intro v hv
        cases v <;> simp at hv
    | succ n ih =>
        intro v _hv
        cases v with
        | null => exact hnull
        | bool b => exact hbool b
        | num m => exact hnum m
        | str s => exact hstr s
        | arr items =>
            refine harr items (fun x hx => ih x ?_)
            have h1 := List.sizeOf_lt_of_mem hx
            simp only [JsonValue.arr.sizeOf_spec] at _hv
            omega
        | obj fields =>
            refine hobj fields (fun kv hkv => ih kv.2 ?_)
            have h1 := List.sizeOf_lt_of_mem hkv
            have h2 : sizeOf kv.2 < sizeOf kv := by
              cases kv with
              | mk a b => simp
            simp only [JsonValue.obj.sizeOf_spec] at _hv
            omega
  exact fun v => key (sizeOf v) v (Nat.le_refl _)

theorem pruneList_mem_fixed (items : List JsonValue)
    (hIH : ∀ x ∈ items, prune (prune x) = prune x) :
    ∀ y ∈ pruneList items, prune y = y ∧ isEmptyVal y = false := by
  induction items with
  | nil => intro y hy; simp [pruneList] at hy
  | cons x xs ih =>
      intro y hy
      have hx := hIH x (List.mem_cons_self x xs)
      have hxs : ∀ z ∈ xs, prune (prune z) = prune z :=
        fun z hz => hIH z (List.mem_cons_of_mem x hz)
      simp only [pruneList] at hy
      by_cases hE : isEmptyVal (prune x) = true
      · rw [if_pos hE] at hy
        exact ih hxs y hy
      · rw [if_neg hE] at hy
        rcases List.mem_cons.mp hy with rfl | h
        · exact ⟨hx, Bool.eq_false_iff.mpr hE⟩
        · exact ih hxs y h

theorem pruneList_of_fixed (items : List JsonValue)
    (h : ∀ y ∈ items, prune y = y ∧ isEmptyVal y = false) :
    pruneList items = items := by
  induction items with
  | nil => rfl
  | cons x xs ih =>
      have hx := h x (List.mem_cons_self x xs)
      have hxs := ih (fun y hy => h y (List.mem_cons_of_mem x hy))
      simp only [pruneList, hx.1, hx.2, hxs]
      simp

theorem pruneFields_mem_fixed (fields : List (String × JsonValue))
    (hIH : ∀ kv ∈ fields, prune (prune kv.2) = prune kv.2) :
    ∀ kv ∈ pruneFields fields, prune kv.2 = kv.2 ∧ isEmptyVal kv.2 = false := by
  induction fields with
  | nil => intro kv hkv; simp [pruneFields] at hkv
  | cons p rest ih =>
      obtain ⟨k, v⟩ := p
      intro kv hkv
      have hv := hIH (k, v) (List.mem_cons_self _ rest)
      have hrest : ∀ q ∈ rest, prune (prune q.2) = prune q.2 :=
        fun q hq => hIH q (List.mem_cons_of_mem _ hq)
      simp only [pruneFields] at hkv
      by_cases hE : isEmptyVal (prune v) = true
      · rw [if_pos hE] at hkv
        exact ih hrest kv hkv
      · rw [if_neg hE] at hkv
        rcases List.mem_cons.mp hkv with rfl | h
        · exact ⟨hv, Bool.eq_false_iff.mpr hE⟩
        · exact ih hrest kv h

theorem pruneFields_of_fixed (fields : List (String × JsonValue))
    (h : ∀ kv ∈ fields, prune kv.2 = kv.2 ∧ isEmptyVal kv.2 = false) :
    pruneFields fields = fields := by
  induction fields with
  | nil => rfl
  | cons p rest ih =>
      obtain ⟨k, v⟩ := p
      have hv := h (k, v) (List.mem_cons_self _ rest)
      have hrest := ih (fun q hq => h q (List.mem_cons_of_mem _ hq))
      simp only [pruneFields] at hv ⊢
      simp only [hv.1, hv.2, hrest]
      simp

/-- C8: `prune` is idempotent: for every JSON value `x`,
`prune (prune x) = prune x`. -/
theorem C8_prune_idempotent : ∀ x : JsonValue, prune (prune x) = prune x := by
  intro x
  induction x using JsonValue.induction_mem with
  | hnull => rfl
  | hbool b => rfl
  | hnum n => rfl
  | hstr s => rfl
  | harr items ih =>
      rw [show prune (JsonValue.arr items)
            = (if (pruneList items).isEmpty then JsonValue.null
               else JsonValue.arr (pruneList items)) from rfl]
      by_cases hE : (pruneList items).isEmpty = true
      · rw [if_pos hE]; rfl
      · rw [if_neg hE]
        have hfix : pruneList (pruneList items) = pruneList items :=
          pruneList_of_fixed _ (pruneList_mem_fixed items ih)
        rw [show prune (JsonValue.arr (pruneList items))
              = (if (pruneList (pruneList items)).isEmpty then JsonValue.null
                 else JsonValue.arr (pruneList (pruneList items))) from rfl,
            hfix, if_neg hE]
  | hobj fields ih =>
      rw [show prune (JsonValue.obj fields)
            = (if (pruneFields fields).isEmpty then JsonValue.null
               else JsonValue.obj (pruneFields fields)) from rfl]
      by_cases hE : (pruneFields fields).isEmpty = true
      · rw [if_pos hE]; rfl
      · rw [if_neg hE]
        have hfix : pruneFields (pruneFields fields) = pruneFields fields :=
          pruneFields_of_fixed _ (pruneFields_mem_fixed fields ih)
        rw [show prune (JsonValue.obj (pruneFields fields))
              = (if (pruneFields (pruneFields fields)).isEmpty then JsonValue.null
                 else JsonValue.obj (pruneFields (pruneFields fields))) from rfl,
            hfix, if_neg hE]

theorem pruneFields_eq_spec (fields : List (String × JsonValue)) :
    pruneFields fields = specPruneFields fields := by
  induction fields with
  | nil => rfl
  | cons p rest ih =>
      obtain ⟨k, v⟩ := p
      simp only [pruneFields, specPruneFields, List.map_cons, List.filter_cons] at *
      by_cases hE : isEmptyVal (prune v) = true
      · simp [hE, ih]
      · simp [Bool.eq_false_iff.mpr hE, ih]

theorem pruneList_eq_spec (items : List JsonValue) :
    pruneList items = specPruneList items := by
  induction items with
  | nil => rfl
  | cons x rest ih =>
      simp only [pruneList, specPruneList, List.map_cons, List.filter_cons] at *
      by_cases hE : isEmptyVal (prune x) = true
      · simp [hE, ih]
      · simp [Bool.eq_false_iff.mpr hE, ih]

/-- C7: for every JSON value, `prune` works bottom-up: scalars pass through
unchanged; a mapping keeps exactly the keys whose recursively pruned value
is not null, the empty string, an empty list or an empty mapping; a list
keeps exactly the pruned elements that are not null/empty; a container left
entirely empty collapses to the absent sentinel (`null`) rather than an
empty container; and on the concrete example
`{a: null, b: {c: ""}, d: [1, {}]}` the result is `{d: [1]}`. -/
theorem C7_prune_characterization :
    (prune JsonValue.null = JsonValue.null) ∧
    (∀ b, prune (JsonValue.bool b) = JsonValue.bool b) ∧
    (∀ n, prune (JsonValue.num n) = JsonValue.num n) ∧
    (∀ s, prune (JsonValue.str s) = JsonValue.str s) ∧
    (∀ fields, prune (JsonValue.obj fields) =
        (if (specPruneFields fields).isEmpty then JsonValue.null
         else JsonValue.obj (specPruneFields fields))) ∧
    (∀ items, prune (JsonValue.arr items) =
        (if (specPruneList items).isEmpty then JsonValue.null
         else JsonValue.arr (specPruneList items))) ∧
    prune (JsonValue.obj [("a", JsonValue.null),
                          ("b", JsonValue.obj [("c", JsonValue.str "")]),
                          ("d", JsonValue.arr [JsonValue.num 1, JsonValue.obj []])])
      = JsonValue.obj [("d", JsonValue.arr [JsonValue.num 1])] := by
  refine ⟨rfl, fun b => rfl, fun n => rfl, fun s => rfl, ?_, ?_, rfl⟩
  · intro fields
    rw [show prune (JsonValue.obj fields)
          = (if (pruneFields fields).isEmpty then JsonValue.null
             else JsonValue.obj (pruneFields fields)) from rfl,
        pruneFields_eq_spec]
  · intro items
    rw [show prune (JsonValue.arr items)
          = (if (pruneList items).isEmpty then JsonValue.null
             else JsonValue.arr (pruneList items)) from rfl,
        pruneList_eq_spec]

theorem pyIsFalse_iff : ∀ v, pyIsFalse v = true ↔ v = JsonValue.bool false
  | .null => by simp [pyIsFalse]
  | .bool true => by simp [pyIsFalse]
  | .bool false => by simp [pyIsFalse]
  | .num n => by simp [pyIsFalse]
  | .str s => by simp [pyIsFalse]
  | .arr xs => by simp [pyIsFalse]
  | .obj fs => by simp [pyIsFalse]

theorem pyEqStr_getField_iff (flight : List (String × JsonValue)) (key s : String) :
    pyEqStr (getField flight key) s = true ↔
      lookupField flight key = some (JsonValue.str s) := by
  unfold getField
  cases h : lookupField flight key with
  | none => simp [pyEqStr]
  | some v => cases v <;> simp [pyEqStr]

/-- C6: for every flight record, when the value under `live` is a mapping
containing the key `is_ground`, the airborne predicate holds exactly when
that value is the explicit boolean `false`, irrespective of
`flight_status`; otherwise it holds exactly when the value under
`flight_status` is the string "active". -/
theorem C6_is_in_air (flight live : List (String × JsonValue)) :
    (lookupField flight "live" = some (JsonValue.obj live) →
      hasField live "is_ground" = true →
        (is_in_air flight = true ↔ getField live "is_ground" = JsonValue.bool false)) ∧
    (liveHasIsGround flight = false →
        (is_in_air flight = true ↔
          lookupField flight "flight_status" = some (JsonValue.str "active"))) := by
  constructor
  · intro hlive hg
    simp only [is_in_air, hlive, hg, if_true]
    exact pyIsFalse_iff _
  · intro hnot
    simp only [liveHasIsGround] at hnot
    simp only [is_in_air]
    cases h : lookupField flight "live" with
    | none => exact pyEqStr_getField_iff flight "flight_status" "active"
    | some v =>
        cases v with
        | obj l =>
            have hg : hasField l "is_ground" = false := by
              rw [h] at hnot
              exact hnot
            simp only [hg, Bool.false_eq_true, if_false]
            exact pyEqStr_getField_iff flight "flight_status" "active"
        | null => exact pyEqStr_getField_iff flight "flight_status" "active"
        | bool b => exact pyEqStr_getField_iff flight "flight_status" "active"
        | num n => exact pyEqStr_getField_iff flight "flight_status" "active"
        | str t => exact pyEqStr_getField_iff flight "flight_status" "active"
        | arr xs => exact pyEqStr_getField_iff flight "flight_status" "active"

/-- Witness for C6 at concrete records: an explicit `is_ground=false` makes
a record airborne even with `flight_status="scheduled"`, and with no `live`
mapping, `flight_status="active"` decides. -/
theorem C6_is_in_air_witness :
    is_in_air [("live", JsonValue.obj [("is_ground", JsonValue.bool false)]),
               ("flight_status", JsonValue.str "scheduled")] = true ∧
    is_in_air [("flight_status", JsonValue.str "active")] = true := by
  constructor
  · exact ((C6_is_in_air
      [("live", JsonValue.obj [("is_ground", JsonValue.bool false)]),
       ("flight_status", JsonValue.str "scheduled")]
      [("is_ground", JsonValue.bool false)]).1 rfl rfl).mpr rfl
  · exact ((C6_is_in_air [("flight_status", JsonValue.str "active")] []).2 rfl).mpr rfl

theorem extractFlights_eq_spec (flights : List JsonValue) :
    extractFlights flights = specExtract flights := by
  induction flights with
  | nil => rfl
  | cons f rest ih =>
      cases f with
      | obj fields =>
          by_cases hA : is_in_air fields = true
          · simp only [extractFlights, specExtract, List.filter_cons, List.map_cons,
                       isObjVal, hA, Bool.true_and, if_true] at *
            simp [ih]
          · simp only [extractFlights, specExtract, List.filter_cons, List.map_cons,
                       isObjVal, Bool.eq_false_iff.mpr hA, Bool.true_and] at *
            simp [ih]
      | null => simpa [extractFlights, specExtract, List.filter_cons, isObjVal] using ih
      | bool b => simpa [extractFlights, specExtract, List.filter_cons, isObjVal] using ih
      | num n => simpa [extractFlights, specExtract, List.filter_cons, isObjVal] using ih
      | str s => simpa [extractFlights, specExtract, List.filter_cons, isObjVal] using ih
      | arr xs => simpa [extractFlights, specExtract, List.filter_cons, isObjVal] using ih

theorem fetch_core_with_flights (text : String) (fs : List (String × JsonValue))
    (fl : List JsonValue)
    (herr : hasField fs "error" = false)
    (hfl : flightsOf (JsonValue.obj fs) = some fl) (hne : fl ≠ []) :
    fetch_core (HttpResult.response 200 text (some (JsonValue.obj fs))) =
      Except.ok
        { connected := true, http_ok := true, json_ok := true, api_ok := true,
          has_flights_array := true,
          extracted_any := !(extractFlights fl).isEmpty,
          error_message := if (extractFlights fl).isEmpty then some noMatchesMsg else none,
          flights_extracted := extractFlights fl,
          raw := some (JsonValue.obj fs) } := by
  simp only [fetch_core, payloadHasKey, herr, hfl]
  cases fl with
  | nil => exact absurd rfl hne
  | cons a l =>
      by_cases hx : (extractFlights (a :: l)).isEmpty = true
      · simp [hx, initStatus]
      · simp [hx, initStatus]

theorem fetch_core_no_flights (text : String) (fs : List (String × JsonValue))
    (herr : hasField fs "error" = false)
    (hfl : noUsableFlights (JsonValue.obj fs) = true) :
    fetch_core (HttpResult.response 200 text (some (JsonValue.obj fs))) =
      Except.ok
        { connected := true, http_ok := true, json_ok := true, api_ok := true,
          has_flights_array := false, extracted_any := false,
          error_message := some noFlightsMsg, flights_extracted := [],
          raw := some (JsonValue.obj fs) } := by
  simp only [noUsableFlights] at hfl
  simp only [fetch_core, payloadHasKey, herr]
  cases h : flightsOf (JsonValue.obj fs) with
  | none => simp [initStatus]
  | some fl =>
      rw [h] at hfl
      have hE : fl.isEmpty = true := hfl
      simp [hE, initStatus]

/-- C2: every `FetchStatus` returned by `fetch_in_air_flights` has monotone
checkpoints (`http_ok → connected`, `json_ok → http_ok`, `api_ok →
json_ok`, `has_flights_array → api_ok`, `extracted_any →
has_flights_array`), and `flights_extracted` is non-empty only if
`has_flights_array` is true. -/
theorem C2_checkpoints_monotone (net : HttpResult) (s : FetchStatus)
    (h : fetch_core net = Except.ok s) :
    (s.http_ok = true → s.connected = true) ∧
    (s.json_ok = true → s.http_ok = true) ∧
    (s.api_ok = true → s.json_ok = true) ∧
    (s.has_flights_array = true → s.api_ok = true) ∧
    (s.extracted_any = true → s.has_flights_array = true) ∧
    (s.flights_extracted ≠ [] → s.has_flights_array = true) := by
  cases net with
  | timeout =>
      have h2 : ({ initStatus with error_message := some "Request timed out." } : FetchStatus) = s :=
        Except.ok.inj h
      subst h2
      simp [initStatus]
  | connectionError =>
      have h2 : ({ initStatus with
          error_message := some "Connection error (could not reach the API)." } : FetchStatus) = s :=
        Except.ok.inj h
      subst h2
      simp [initStatus]
  | requestException e =>
      have h2 : ({ initStatus with
          error_message := some ("Unexpected request error: " ++ e) } : FetchStatus) = s :=
        Except.ok.inj h
      subst h2
      simp [initStatus]
  | response code text body =>
      simp only [fetch_core] at h
      split at h
      · have h2 := Except.ok.inj h
        subst h2
        simp [initStatus]
      · split at h
        · have h2 := Except.ok.inj h
          subst h2
          simp [initStatus]
        · split at h
          · split at h
            · have h2 := Except.ok.inj h
              subst h2
              simp [initStatus]
            · exact absurd h (by simp)
          · split at h
            · have h2 := Except.ok.inj h
              subst h2
              simp [initStatus]
            · split at h
              · have h2 := Except.ok.inj h
                subst h2
                simp [initStatus]
              · split at h
                · have h2 := Except.ok.inj h
                  subst h2
                  simp [initStatus]
                · have h2 := Except.ok.inj h
                  subst h2
                  simp [initStatus]

/-- Witness for C2 at the timeout outcome. -/
theorem C2_checkpoints_monotone_witness :
    fetch_core HttpResult.timeout =
      Except.ok { initStatus with error_message := some "Request timed out." } ∧
    (({ initStatus with error_message := some "Request timed out." } : FetchStatus).flights_extracted ≠ [] →
      ({ initStatus with error_message := some "Request timed out." } : FetchStatus).has_flights_array = true) :=
  ⟨rfl, (C2_checkpoints_monotone HttpResult.timeout _ rfl).2.2.2.2.2⟩

/-- Counterexample to C1 as stated: a 200 response whose JSON body has a
top-level `error` key holding a truthy non-mapping value (here the string
"boom") does not produce a returned `FetchStatus`: `err.get` is called on a
non-dict, and the resulting `AttributeError` is not caught by the
`requests`-only `except` clauses, so the call raises. -/
theorem C1_counterexample :
    fetch_core (HttpResult.response 200 ""
        (some (JsonValue.obj [("error", JsonValue.str "boom")]))) =
      Except.error "AttributeError: object has no attribute get" := rfl

/-- C1 (amended): after credentials are resolved, for every request outcome
other than a 200 JSON mapping body whose top-level `error` value is truthy
and not itself a mapping (on that one input the code raises
`AttributeError`), `fetch_in_air_flights` returns a `FetchStatus` and never
raises; the returned status's first false checkpoint identifies the failing
stage, every non-success outcome carries an `error_message`, and a timeout
in particular yields `connected = false` and
`error_message = "Request timed out."`. -/
theorem C1_returns_status_staged (net : HttpResult)
    (h : badErrorEnvelope net = false) :
    (fetch_core net).isOk = true ∧
    (∀ s, fetch_core net = Except.ok s →
      stageOf s = expectedStage net ∧
      (expectedStage net ≠ Stage.success → s.error_message.isSome = true) ∧
      (net = HttpResult.timeout →
        s.connected = false ∧ s.error_message = some "Request timed out.")) := by
  cases net with
  | timeout =>
      refine ⟨rfl, fun s hs => ?_⟩
      have h2 := Except.ok.inj hs
      subst h2
      exact ⟨rfl, fun _ => rfl, fun _ => ⟨rfl, rfl⟩⟩
  | connectionError =>
      refine ⟨rfl, fun s hs => ?_⟩
      have h2 := Except.ok.inj hs
      subst h2
      exact ⟨rfl, fun _ => rfl, fun hx => nomatch hx⟩
  | requestException e =>
      refine ⟨rfl, fun s hs => ?_⟩
      have h2 := Except.ok.inj hs
      subst h2
      exact ⟨rfl, fun _ => rfl, fun hx => nomatch hx⟩
  | response code text body =>
      by_cases hc : code = 200
      · subst hc
        cases body with
        | none =>
            refine ⟨rfl, fun s hs => ?_⟩
            have h2 := Except.ok.inj hs
            subst h2
            exact ⟨rfl, fun _ => rfl, fun hx => nomatch hx⟩
        | some payload =>
            cases he : payloadHasKey payload "error" with
            | true =>
                have hobj : isObjVal (errObjOf payload) = true := by
                  simp only [badErrorEnvelope, he] at h
                  simpa using h
                cases hE : errObjOf payload with
                | obj errFields =>
                    have heq : fetch_core (HttpResult.response 200 text (some payload)) =
                        Except.ok { initStatus with
                          connected := true, http_ok := true, json_ok := true,
                          raw := some payload,
                          error_message := some ("API error: "
                            ++ pyStr (getField errFields "code") ++ " - "
                            ++ pyStr (getField errFields "message")) } := by
                      simp [fetch_core, he, hE]
                    have hexp : expectedStage (HttpResult.response 200 text (some payload)) =
                        Stage.apiError := by
                      simp [expectedStage, he]
                    refine ⟨by rw [heq]; rfl, fun s hs => ?_⟩
                    have h2 := Except.ok.inj (heq.symm.trans hs)
                    subst h2
                    exact ⟨by rw [hexp]; rfl, fun _ => rfl, fun hx => nomatch hx⟩
                | null => rw [hE] at hobj; simp [isObjVal] at hobj
                | bool b => rw [hE] at hobj; simp [isObjVal] at hobj
                | num n => rw [hE] at hobj; simp [isObjVal] at hobj
                | str t => rw [hE] at hobj; simp [isObjVal] at hobj
                | arr xs => rw [hE] at hobj; simp [isObjVal] at hobj
            | false =>
                cases hfo : flightsOf payload with
                | none =>
                    have heq : fetch_core (HttpResult.response 200 text (some payload)) =
                        Except.ok { initStatus with
                          connected := true, http_ok := true, json_ok := true,
                          api_ok := true, raw := some payload,
                          error_message := some noFlightsMsg } := by
                      simp [fetch_core, he, hfo]
                    have hexp : expectedStage (HttpResult.response 200 text (some payload)) =
                        Stage.noFlights := by
                      simp [expectedStage, he, hfo]
                    refine ⟨by rw [heq]; rfl, fun s hs => ?_⟩
                    have h2 := Except.ok.inj (heq.symm.trans hs)
                    subst h2
                    exact ⟨by rw [hexp]; rfl, fun _ => rfl, fun hx => nomatch hx⟩
                | some fl =>
                    cases hemp : fl.isEmpty with
                    | true =>
                        have heq : fetch_core (HttpResult.response 200 text (some payload)) =
                            Except.ok { initStatus with
                              connected := true, http_ok := true, json_ok := true,
                              api_ok := true, raw := some payload,
                              error_message := some noFlightsMsg } := by
                          simp [fetch_core, he, hfo, hemp]
                        have hexp : expectedStage (HttpResult.response 200 text (some payload)) =
                            Stage.noFlights := by
                          simp [expectedStage, he, hfo, hemp]
                        refine ⟨by rw [heq]; rfl, fun s hs => ?_⟩
                        have h2 := Except.ok.inj (heq.symm.trans hs)
                        subst h2
                        exact ⟨by rw [hexp]; rfl, fun _ => rfl, fun hx => nomatch hx⟩
                    | false =>
                        cases hx : (extractFlights fl).isEmpty with
                        | true =>
                            have heq : fetch_core (HttpResult.response 200 text (some payload)) =
                                Except.ok { initStatus with
                                  connected := true, http_ok := true, json_ok := true,
                                  api_ok := true, has_flights_array := true,
                                  extracted_any := false,
                                  flights_extracted := extractFlights fl,
                                  raw := some payload,
                                  error_message := some noMatchesMsg } := by
                              simp [fetch_core, he, hfo, hemp, hx]
                            have hexp : expectedStage (HttpResult.response 200 text (some payload)) =
                                Stage.noMatches := by
                              simp [expectedStage, he, hfo, hemp, hx]
                            refine ⟨by rw [heq]; rfl, fun s hs => ?_⟩
                            have h2 := Except.ok.inj (heq.symm.trans hs)
                            subst h2
                            exact ⟨by rw [hexp]; rfl, fun _ => rfl, fun hx2 => nomatch hx2⟩
                        | false =>
                            have heq : fetch_core (HttpResult.response 200 text (some payload)) =
                                Except.ok { initStatus with
                                  connected := true, http_ok := true, json_ok := true,
                                  api_ok := true, has_flights_array := true,
                                  extracted_any := true,
                                  flights_extracted := extractFlights fl,
                                  raw := some payload } := by
                              simp [fetch_core, he, hfo, hemp, hx]
                            have hexp : expectedStage (HttpResult.response 200 text (some payload)) =
                                Stage.success := by
                              simp [expectedStage, he, hfo, hemp, hx]
                            refine ⟨by rw [heq]; rfl, fun s hs => ?_⟩
                            have h2 := Except.ok.inj (heq.symm.trans hs)
                            subst h2
                            exact ⟨by rw [hexp]; rfl, fun hne => absurd hexp hne,
                                   fun hx2 => nomatch hx2⟩
      · have heq : fetch_core (HttpResult.response code text body) =
            Except.ok { initStatus with
              connected := true,
              error_message := some ("HTTP error " ++ toString code ++ ": "
                ++ text.take 300) } := by
          simp only [fetch_core]
          rw [if_pos hc]
        have hexp : expectedStage (HttpResult.response code text body) =
            Stage.badHttp := by
          simp only [expectedStage]
          rw [if_pos hc]
        refine ⟨by rw [heq]; rfl, fun s hs => ?_⟩
        have h2 := Except.ok.inj (heq.symm.trans hs)
        subst h2
        exact ⟨by rw [hexp]; rfl, fun _ => rfl, fun hx => nomatch hx⟩

/-- Witness for C1 at the timeout outcome. -/
theorem C1_returns_status_staged_witness :
    (fetch_core HttpResult.timeout).isOk = true ∧
    stageOf { initStatus with error_message := some "Request timed out." } =
      expectedStage HttpResult.timeout ∧
    ({ initStatus with error_message := some "Request timed out." } : FetchStatus).connected = false ∧
    ({ initStatus with error_message := some "Request timed out." } : FetchStatus).error_message =
      some "Request timed out." := by
  refine ⟨(C1_returns_status_staged HttpResult.timeout rfl).1, ?_, ?_, ?_⟩
  · exact ((C1_returns_status_staged HttpResult.timeout rfl).2 _ rfl).1
  · exact (((C1_returns_status_staged HttpResult.timeout rfl).2 _ rfl).2.2 rfl).1
  · exact (((C1_returns_status_staged HttpResult.timeout rfl).2 _ rfl).2.2 rfl).2

/-- Counterexample to C3 as stated: for the 200 body
`{"data": [], "results": [1]}` the key `results` does yield a non-empty
list, yet the code selects `data` (an empty list, still a list), so the
returned status has `has_flights_array = false` with the no-flights-list
message — contradicting "exactly when neither key yields a non-empty
list". -/
theorem C3_counterexample :
    fetch_core (HttpResult.response 200 ""
        (some (JsonValue.obj [("data", JsonValue.arr []),
                              ("results", JsonValue.arr [JsonValue.num 1])]))) =
      Except.ok
        { connected := true, http_ok := true, json_ok := true, api_ok := true,
          has_flights_array := false, extracted_any := false,
          error_message := some noFlightsMsg, flights_extracted := [],
          raw := some (JsonValue.obj [("data", JsonValue.arr []),
                                      ("results", JsonValue.arr [JsonValue.num 1])]) } := rfl

/-- C3 (amended): for every parsed 200 JSON mapping body with no top-level
`error` key, `fetch_in_air_flights` sets the no-flights-list message and
returns with `has_flights_array = false` exactly when the selected flights
list — the value of `data` when that value is a list, else the value of
`results` when that value is a list, else none — is absent or empty (so a
body whose `data` value is the empty list counts as absence even when
`results` holds a non-empty list); otherwise it sets
`has_flights_array = true` and proceeds to extraction over the selected
list. -/
theorem C3_no_flights_amended (text : String) (fs : List (String × JsonValue))
    (s : FetchStatus)
    (herr : hasField fs "error" = false)
    (h : fetch_core (HttpResult.response 200 text (some (JsonValue.obj fs))) =
      Except.ok s) :
    ((s.has_flights_array = false ∧ s.error_message = some noFlightsMsg) ↔
      noUsableFlights (JsonValue.obj fs) = true) ∧
    (noUsableFlights (JsonValue.obj fs) = false →
      s.has_flights_array = true ∧
      s.flights_extracted = extractFlights ((flightsOf (JsonValue.obj fs)).getD [])) := by
  cases hu : noUsableFlights (JsonValue.obj fs) with
  | true =>
      have heq := fetch_core_no_flights text fs herr hu
      have h2 := Except.ok.inj (heq.symm.trans h)
      subst h2
      constructor
      · simp
      · intro hc
        exact nomatch hc
  | false =>
      obtain ⟨fl, hfl, hne⟩ : ∃ fl, flightsOf (JsonValue.obj fs) = some fl ∧ fl ≠ [] := by
        simp only [noUsableFlights] at hu
        cases hfo : flightsOf (JsonValue.obj fs) with
        | none => rw [hfo] at hu; simp at hu
        | some fl =>
            rw [hfo] at hu
            have hE : fl.isEmpty = false := hu
            refine ⟨fl, rfl, fun hnil => ?_⟩
            subst hnil
            simp at hE
      have heq := fetch_core_with_flights text fs fl herr hfl hne
      have h2 := Except.ok.inj (heq.symm.trans h)
      subst h2
      constructor
      · simp
      · intro _
        refine ⟨rfl, ?_⟩
        rw [hfl]
        rfl

/-- Witness for C3 (amended) at the mocked 200 body with an empty `data`
list. -/
theorem C3_no_flights_amended_witness :
    ((({ connected := true, http_ok := true, json_ok := true, api_ok := true,
         has_flights_array := false, extracted_any := false,
         error_message := some noFlightsMsg, flights_extracted := [],
         raw := some (JsonValue.obj [("data", JsonValue.arr [])]) } : FetchStatus).has_flights_array = false ∧
      ({ connected := true, http_ok := true, json_ok := true, api_ok := true,
         has_flights_array := false, extracted_any := false,
         error_message := some noFlightsMsg, flights_extracted := [],
         raw := some (JsonValue.obj [("data", JsonValue.arr [])]) } : FetchStatus).error_message = some noFlightsMsg) ↔
      noUsableFlights (JsonValue.obj [("data", JsonValue.arr [])]) = true) ∧
    (noUsableFlights (JsonValue.obj [("data", JsonValue.arr [])]) = false →
      ({ connected := true, http_ok := true, json_ok := true, api_ok := true,
         has_flights_array := false, extracted_any := false,
         error_message := some noFlightsMsg, flights_extracted := [],
         raw := some (JsonValue.obj [("data", JsonValue.arr [])]) } : FetchStatus).has_flights_array = true ∧
      ({ connected := true, http_ok := true, json_ok := true, api_ok := true,
         has_flights_array := false, extracted_any := false,
         error_message := some noFlightsMsg, flights_extracted := [],
         raw := some (JsonValue.obj [("data", JsonValue.arr [])]) } : FetchStatus).flights_extracted =
        extractFlights ((flightsOf (JsonValue.obj [("data", JsonValue.arr [])])).getD [])) :=
  C3_no_flights_amended "" [("data", JsonValue.arr [])] _ rfl rfl

/-- C4: whenever a 200 JSON mapping body without a top-level `error` key
has `data` bound to a list, the flights list used by
`fetch_in_air_flights` for extraction is the value of `data`, never the
value of `results`, even when `results` is also present and is a list. -/
theorem C4_data_preferred (text : String) (fs : List (String × JsonValue))
    (xs : List JsonValue)
    (hdata : lookupField fs "data" = some (JsonValue.arr xs))
    (herr : hasField fs "error" = false) :
    flightsOf (JsonValue.obj fs) = some xs ∧
    (∀ s, xs ≠ [] →
      fetch_core (HttpResult.response 200 text (some (JsonValue.obj fs))) =
        Except.ok s →
      s.flights_extracted = extractFlights xs) := by
  have hfo : flightsOf (JsonValue.obj fs) = some xs := by
    simp [flightsOf, hdata]
  refine ⟨hfo, fun s hne h => ?_⟩
  have heq := fetch_core_with_flights text fs xs herr hfo hne
  have h2 := Except.ok.inj (heq.symm.trans h)
  subst h2
  rfl

/-- Witness for C4 at a body where both `data` and `results` hold lists:
the extraction result comes from the `data` list. -/
theorem C4_data_preferred_witness :
    flightsOf (JsonValue.obj
        [("data", JsonValue.arr [JsonValue.obj [("flight_status", JsonValue.str "active")]]),
         ("results", JsonValue.arr [JsonValue.num 7])]) =
      some [JsonValue.obj [("flight_status", JsonValue.str "active")]] ∧
    ({ connected := true, http_ok := true, json_ok := true, api_ok := true,
       has_flights_array := true, extracted_any := true,
       error_message := none,
       flights_extracted := [JsonValue.obj [("flight_status", JsonValue.str "active")]],
       raw := some (JsonValue.obj
        [("data", JsonValue.arr [JsonValue.obj [("flight_status", JsonValue.str "active")]]),
         ("results", JsonValue.arr [JsonValue.num 7])]) } : FetchStatus).flights_extracted =
      extractFlights [JsonValue.obj [("flight_status", JsonValue.str "active")]] :=
  ⟨(C4_data_preferred ""
      [("data", JsonValue.arr [JsonValue.obj [("flight_status", JsonValue.str "active")]]),
       ("results", JsonValue.arr [JsonValue.num 7])]
      [JsonValue.obj [("flight_status", JsonValue.str "active")]] rfl rfl).1,
   (C4_data_preferred ""
      [("data", JsonValue.arr [JsonValue.obj [("flight_status", JsonValue.str "active")]]),
       ("results", JsonValue.arr [JsonValue.num 7])]
      [JsonValue.obj [("flight_status", JsonValue.str "active")]] rfl rfl).2 _
      (by simp) rfl⟩

/-- C5: once `has_flights_array` holds, `flights_extracted` is exactly the
sublist of flights that are mappings satisfying the airborne predicate, in
original order, each replaced by its pruned copy except that a record whose
pruning collapses to the absent sentinel is kept unpruned; `extracted_any`
is true exactly when that list is non-empty, and when it is empty the
status carries the zero-match message with the five earlier checkpoints
left true (and no message otherwise). -/
theorem C5_extraction (text : String) (fs : List (String × JsonValue))
    (fl : List JsonValue) (s : FetchStatus)
    (herr : hasField fs "error" = false)
    (hfl : flightsOf (JsonValue.obj fs) = some fl) (hne : fl ≠ [])
    (h : fetch_core (HttpResult.response 200 text (some (JsonValue.obj fs))) =
      Except.ok s) :
    s.has_flights_array = true ∧
    s.flights_extracted = specExtract fl ∧
    s.extracted_any = !(specExtract fl).isEmpty ∧
    (specExtract fl = [] →
      s.error_message = some noMatchesMsg ∧
      s.connected = true ∧ s.http_ok = true ∧ s.json_ok = true ∧ s.api_ok = true) ∧
    (specExtract fl ≠ [] → s.error_message = none) := by
  have heq := fetch_core_with_flights text fs fl herr hfl hne
  have h2 := Except.ok.inj (heq.symm.trans h)
  subst h2
  simp only [extractFlights_eq_spec]
  by_cases hx : specExtract fl = []
  · simp [hx]
  · simp [hx]

/-- Witness for C5 at a body whose single flight record is not airborne:
the extraction list is empty and the zero-match message is set. -/
theorem C5_extraction_witness :
    ({ connected := true, http_ok := true, json_ok := true, api_ok := true,
       has_flights_array := true, extracted_any := false,
       error_message := some noMatchesMsg, flights_extracted := [],
       raw := some (JsonValue.obj [("data", JsonValue.arr [JsonValue.obj []])]) } : FetchStatus).has_flights_array = true ∧
    ({ connected := true, http_ok := true, json_ok := true, api_ok := true,
       has_flights_array := true, extracted_any := false,
       error_message := some noMatchesMsg, flights_extracted := [],
       raw := some (JsonValue.obj [("data", JsonValue.arr [JsonValue.obj []])]) } : FetchStatus).flights_extracted =
      specExtract [JsonValue.obj []] ∧
    ({ connected := true, http_ok := true, json_ok := true, api_ok := true,
       has_flights_array := true, extracted_any := false,
       error_message := some noMatchesMsg, flights_extracted := [],
       raw := some (JsonValue.obj [("data", JsonValue.arr [JsonValue.obj []])]) } : FetchStatus).extracted_any =
      !(specExtract [JsonValue.obj []]).isEmpty ∧
    (specExtract [JsonValue.obj []] = [] →
      ({ connected := true, http_ok := true, json_ok := true, api_ok := true,
         has_flights_array := true, extracted_any := false,
         error_message := some noMatchesMsg, flights_extracted := [],
         raw := some (JsonValue.obj [("data", JsonValue.arr [JsonValue.obj []])]) } : FetchStatus).error_message = some noMatchesMsg ∧
      ({ connected := true, http_ok := true, json_ok := true, api_ok := true,
         has_flights_array := true, extracted_any := false,
         error_message := some noMatchesMsg, flights_extracted := [],
         raw := some (JsonValue.obj [("data", JsonValue.arr [JsonValue.obj []])]) } : FetchStatus).connected = true ∧
      ({ connected := true, http_ok := true, json_ok := true, api_ok := true,
         has_flights_array := true, extracted_any := false,
         error_message := some noMatchesMsg, flights_extracted := [],
         raw := some (JsonValue.obj [("data", JsonValue.arr [JsonValue.obj []])]) } : FetchStatus).http_ok = true ∧
      ({ connected := true, http_ok := true, json_ok := true, api_ok := true,
         has_flights_array := true, extracted_any := false,
         error_message := some noMatchesMsg, flights_extracted := [],
         raw := some (JsonValue.obj [("data", JsonValue.arr [JsonValue.obj []])]) } : FetchStatus).json_ok = true ∧
      ({ connected := true, http_ok := true, json_ok := true, api_ok := true,
         has_flights_array := true, extracted_any := false,
         error_message := some noMatchesMsg, flights_extracted := [],
         raw := some (JsonValue.obj [("data", JsonValue.arr [JsonValue.obj []])]) } : FetchStatus).api_ok = true) ∧
    (specExtract [JsonValue.obj []] ≠ [] →
      ({ connected := true, http_ok := true, json_ok := true, api_ok := true,
         has_flights_array := true, extracted_any := false,
         error_message := some noMatchesMsg, flights_extracted := [],
         raw := some (JsonValue.obj [("data", JsonValue.arr [JsonValue.obj []])]) } : FetchStatus).error_message = none) :=
  C5_extraction "" [("data", JsonValue.arr [JsonValue.obj []])] [JsonValue.obj []] _
    rfl rfl (by simp) rfl

/-- C9: when the credential provider fails (missing encryption key, missing
host or token, or malformed host URL), `fetch_in_air_flights` propagates
that same failure as a hard error: no `FetchStatus` is produced and zero
HTTP GET requests are issued. -/
theorem C9_credential_failure_propagates (fm : FernetModel) (env : PyEnv)
    (net : HttpResult) (e : String)
    (h : get_credentials fm env 100 = Except.error e) :
    fetch_in_air_flights fm env net = (Except.error e, 0) := by
  simp [fetch_in_air_flights, h]

/-- Witness for C9 with the encryption key missing from the environment. -/
theorem C9_credential_failure_propagates_witness :
    fetch_in_air_flights
        { keyOk := fun _ => true, decrypt := fun _ v => Except.ok v }
        { encryption_key := none, api_url := some "https://api.example.com",
          token := some "tok" }
        HttpResult.timeout =
      (Except.error "Missing ENCRYPTION_KEY in environment (.env).", 0) :=
  C9_credential_failure_propagates _ _ _ _ rfl

/-- C10: for a 200 response whose JSON mapping body has no top-level
`error` key and whose `data` value is a non-empty list, the simple variant
agrees with the staged variant: its extracted list equals the
`flights_extracted` of the returned `FetchStatus`, and its returned payload
equals that status's `raw` field. -/
theorem C10_partial_agrees (text : String) (fs : List (String × JsonValue))
    (xs : List JsonValue) (s : FetchStatus)
    (hdata : lookupField fs "data" = some (JsonValue.arr xs)) (hne : xs ≠ [])
    (herr : hasField fs "error" = false)
    (h : fetch_core (HttpResult.response 200 text (some (JsonValue.obj fs))) =
      Except.ok s) :
    fetch_partial_core (HttpResult.response 200 text (some (JsonValue.obj fs))) =
      Except.ok (s.flights_extracted, JsonValue.obj fs) ∧
    s.raw = some (JsonValue.obj fs) := by
  have hfo : flightsOf (JsonValue.obj fs) = some xs := by
    simp [flightsOf, hdata]
  have heq := fetch_core_with_flights text fs xs herr hfo hne
  have h2 := Except.ok.inj (heq.symm.trans h)
  subst h2
  refine ⟨?_, rfl⟩
  cases xs with
  | nil => exact absurd rfl hne
  | cons a l =>
      simp [fetch_partial_core, payloadHasKey, herr, getField, hdata,
            JsonValue.truthy, pyIter]

/-- Witness for C10 at a 200 body with one airborne flight under `data`. -/
theorem C10_partial_agrees_witness :
    fetch_partial_core (HttpResult.response 200 ""
        (some (JsonValue.obj [("data",
          JsonValue.arr [JsonValue.obj [("flight_status", JsonValue.str "active")]])]))) =
      Except.ok
        (({ connected := true, http_ok := true, json_ok := true, api_ok := true,
            has_flights_array := true, extracted_any := true,
            error_message := none,
            flights_extracted := [JsonValue.obj [("flight_status", JsonValue.str "active")]],
            raw := some (JsonValue.obj [("data",
              JsonValue.arr [JsonValue.obj [("flight_status", JsonValue.str "active")]])]) } : FetchStatus).flights_extracted,
         JsonValue.obj [("data",
           JsonValue.arr [JsonValue.obj [("flight_status", JsonValue.str "active")]])]) ∧
    ({ connected := true, http_ok := true, json_ok := true, api_ok := true,
       has_flights_array := true, extracted_any := true,
       error_message := none,
       flights_extracted := [JsonValue.obj [("flight_status", JsonValue.str "active")]],
       raw := some (JsonValue.obj [("data",
         JsonValue.arr [JsonValue.obj [("flight_status", JsonValue.str "active")]])]) } : FetchStatus).raw =
      some (JsonValue.obj [("data",
        JsonValue.arr [JsonValue.obj [("flight_status", JsonValue.str "active")]])]) :=
  C10_partial_agrees ""
    [("data", JsonValue.arr [JsonValue.obj [("flight_status", JsonValue.str "active")]])]
    [JsonValue.obj [("flight_status", JsonValue.str "active")]] _
    rfl (by simp) rfl rfl
